/-
Verification of the `mosconi_custom_web_product_fields_all` Odoo module
(src/controllers/main.py), a storefront controller exposing two JSON
endpoints: `/shop/variant/info` (variant color name and SKU lookup) and
`/shop/shipping/calculate` (shipping cost estimation by postal code).

The controller code is shallowly embedded: the ORM database visible to the
controller (partners, sale orders, order lines, products, carriers, website
settings) is an explicit `Env` record threaded through every operation;
framework primitives used by the controller (`search`, `create`, `write`,
`browse`, `sale_get_order`) are translated to list operations on `Env`
following Odoo's documented semantics (in particular, `search` skips
records with `active = False` when the domain does not mention `active`).
The framework's carrier rating method `delivery.carrier.rate_shipment`,
which is not part of this module, is a parameter `rs : RateFn`; a Python
exception raised by it is `Except.error ()`.  Python strings are `String`,
Python `None` / missing dict keys are `Option`, monetary amounts are `Int`.
-/
import Mathlib

namespace Mosconi

/-- `x or default` on an optional Python string: `None` and `''` are falsy. -/
def pyStrOr (x : Option String) (d : String) : String :=
  match x with
  | none => d
  | some s => if s = "" then d else s

/-- Python `str.strip()`, modelled on the character list: drop leading and
trailing whitespace. -/
def pyStrip (s : String) : String :=
  ⟨(s.data.dropWhile Char.isWhitespace).reverse.dropWhile Char.isWhitespace |>.reverse⟩

/-- Python `str.upper()`, modelled on the character list. -/
def pyUpper (s : String) : String :=
  ⟨s.data.map Char.toUpper⟩

/-- `if not product_id` on an optional Python int: `None` and `0` are falsy. -/
def pyFalsyNat : Option Nat → Bool
  | none => true
  | some n => n == 0

/-- One `product.template.attribute.value` link of a variant, flattened to the
two fields the controller reads: `ptav.attribute_id.display_type` and
`ptav.product_attribute_value_id.name`. -/
structure Ptav where
  attribute_display_type : String
  value_name : String
deriving DecidableEq, Repr

/-- A `product.product` variant, restricted to the fields the controller
reads.  `default_code` is `none` when the Odoo char field is unset. -/
structure Product where
  product_template_attribute_value_ids : List Ptav
  default_code : Option String
  lst_price : Int
deriving DecidableEq, Repr

/-- A `res.partner` row, restricted to the fields this module touches. -/
structure Partner where
  id : Nat
  name : String
  zip : String
  country_id : Option Nat
  active : Bool
deriving DecidableEq, Repr

/-- A `sale.order` row, restricted to the fields this module touches. -/
structure SaleOrder where
  id : Nat
  partner_id : Nat
  partner_shipping_id : Nat
  website_id : Nat
  pricelist_id : Nat
  company_id : Nat
deriving DecidableEq, Repr

/-- A `sale.order.line` row, restricted to the fields this module writes. -/
structure SaleOrderLine where
  id : Nat
  order_id : Nat
  product_id : Nat
  product_uom_qty : Int
  price_unit : Int
deriving DecidableEq, Repr

/-- A `delivery.carrier` row.  `fixed_price = none` models a carrier class
without the attribute (the controller guards with `hasattr`). -/
structure Carrier where
  id : Nat
  name : String
  website_published : Bool
  company_id : Option Nat
  fixed_price : Option Int
deriving DecidableEq, Repr

/-- The dict returned by `rate_shipment`: `success` is the truthiness of
`rate.get('success')`; `price` and `delivery_time` are `none` when the key
is absent (the controller reads them with `.get(key, default)`). -/
structure Rate where
  success : Bool
  price : Option Int
  delivery_time : Option String
deriving DecidableEq, Repr

/-- The database and request context visible to the controller.  `products`
is keyed by id (`browse` = association-list lookup); `next_id` feeds ids of
created rows; `cart_order_id` is what `website.sale_get_order()` points at;
`countries` maps country codes to ids. -/
structure Env where
  partners : List Partner
  orders : List SaleOrder
  order_lines : List SaleOrderLine
  products : List (Nat × Product)
  carriers : List Carrier
  countries : List (String × Nat)
  next_id : Nat
  website_id : Nat
  company_id : Nat
  pricelist_id : Nat
  currency_symbol : String
  currency_name : String
  user_is_public : Bool
  user_partner_id : Nat
  cart_order_id : Option Nat

/-- Result of `/shop/variant/info`: either a dict with only an `error` key,
or a dict with exactly the keys `color_name`, `sku`, `product_id`. -/
inductive VariantInfoResult where
  | error (msg : String)
  | ok (color_name : String) (sku : String) (product_id : Nat)
deriving DecidableEq, Repr

/-- The `for ptav in ...` loop body of `_get_color_attribute_value`: return
the value name of the first link whose attribute has `display_type='color'`,
else `None`. -/
def colorLoop : List Ptav → Option String
  | [] => none
  | ptav :: rest =>
    if ptav.attribute_display_type = "color" then some ptav.value_name
    else colorLoop rest

/-- `VariantInfoController._get_color_attribute_value` (main.py 74-103). -/
def _get_color_attribute_value (product : Product) : Option String :=
  colorLoop product.product_template_attribute_value_ids

/-- `VariantInfoController.get_variant_info` (main.py 27-72).  The state is
returned unchanged alongside the response: the handler only reads. -/
def get_variant_info (env : Env) (product_id : Nat) : Env × VariantInfoResult :=
  if product_id == 0 then
    (env, .error "product_id es requerido")
  else
    match env.products.lookup product_id with
    | none => (env, .error "Producto no encontrado")
    | some product =>
      let color_value := _get_color_attribute_value product
      (env, .ok (pyStrOr color_value "") (pyStrOr product.default_code "") product_id)

/-- Spec-side description of the color name (claim C2's words): the value
name of the first color-flagged link, or the empty string when there is
none.  To be compared with the code-side `_get_color_attribute_value`. -/
def colorNameSpec (product : Product) : String :=
  match product.product_template_attribute_value_ids.find?
      (fun v => v.attribute_display_type == "color") with
  | some v => v.value_name
  | none => ""

/-- One entry of the `shipping_options` list.  `delivery_time` defaults to
`''` via `.get`; `is_estimate` is `none` for rated options (the dict has no
such key) and `some true` for base-price fallback options. -/
structure ShippingOption where
  carrier_id : Nat
  carrier_name : String
  price : Int
  currency : String
  currency_name : String
  delivery_time : String
  is_estimate : Option Bool
deriving DecidableEq, Repr

/-- The key of `shipping_options.sort(key=lambda x: x['price'])`. -/
def priceLE (a b : ShippingOption) : Prop :=
  a.price ≤ b.price

instance : DecidableRel priceLE :=
  fun a b => inferInstanceAs (Decidable (a.price ≤ b.price))

instance : IsTotal ShippingOption priceLE :=
  ⟨fun a b => le_total a.price b.price⟩

instance : IsTrans ShippingOption priceLE :=
  ⟨fun _ _ _ h1 h2 => le_trans h1 h2⟩

/-- The framework method `delivery.carrier.rate_shipment(order)`, external
to this module: given a carrier and the id of the order to rate, it either
returns a rate dict or raises (`Except.error ()`). -/
def RateFn : Type :=
  Carrier → Nat → Except Unit Rate

/-- Response dict of `/shop/shipping/calculate`; `none` fields model dict
keys that the corresponding return statement does not include. -/
structure ShippingResponse where
  success : Bool
  zip_code : Option String
  shipping_options : Option (List ShippingOption)
  error_message : Option String
deriving DecidableEq, Repr

/-- The carrier search of `_get_shipping_rates` (main.py 209-212): domain
`[('website_published','=',True), ('company_id','in',[False, company])]`. -/
def searchCarriers (env : Env) : List Carrier :=
  env.carriers.filter
    (fun c => c.website_published &&
      (c.company_id == none || c.company_id == some env.company_id))

/-- Name given to the throwaway partner rows (main.py 279). -/
def tempPartnerName : String := "Cálculo de envío temporal"

/-- `VariantInfoController._get_or_create_temp_partner` (main.py 254-290).
Returns the updated state and the id of the partner to rate against.  The
partner search carries Odoo's implicit `active = True` filter, so the rows
this function creates with `active := false` are never found again. -/
def _get_or_create_temp_partner (env : Env) (zip_code : String) : Env × Nat :=
  if env.user_is_public then
    match env.partners.find?
        (fun p => p.name == tempPartnerName && p.zip == zip_code && p.active) with
    | some p => (env, p.id)
    | none =>
      let country := env.countries.find? (fun c => c.1 == "AR")
      let temp_partner : Partner :=
        { id := env.next_id, name := tempPartnerName, zip := zip_code,
          country_id := country.map (fun c => c.2), active := false }
      ({ env with partners := env.partners ++ [temp_partner],
                  next_id := env.next_id + 1 }, temp_partner.id)
  else
    (env, env.user_partner_id)

/-- `website.sale_get_order()`: the active cart, when the session points at
an existing order. -/
def cartRecord (env : Env) : Option SaleOrder :=
  env.cart_order_id.bind (fun oid => env.orders.find? (fun o => o.id == oid))

/-- `VariantInfoController._get_order_for_calculation` (main.py 292-340).
Returns the updated state and the id of the order to rate, or `none` when
no order can be built.  An existing cart gets its `partner_shipping_id`
overwritten; otherwise a draft order plus one line are created. -/
def _get_order_for_calculation (env : Env) (partner_id : Nat)
    (product_id : Option Nat) (quantity : Int) : Env × Option Nat :=
  match cartRecord env with
  | some sale_order =>
    let orders := env.orders.map
      (fun o => if o.id = sale_order.id
                then { o with partner_shipping_id := partner_id } else o)
    ({ env with orders := orders }, some sale_order.id)
  | none =>
    if pyFalsyNat product_id then (env, none)
    else
      match env.products.lookup (product_id.getD 0) with
      | none => (env, none)
      | some product =>
        let order : SaleOrder :=
          { id := env.next_id, partner_id := partner_id,
            partner_shipping_id := partner_id, website_id := env.website_id,
            pricelist_id := env.pricelist_id, company_id := env.company_id }
        let env1 : Env :=
          { env with orders := env.orders ++ [order], next_id := env.next_id + 1 }
        let line : SaleOrderLine :=
          { id := env1.next_id, order_id := order.id,
            product_id := product_id.getD 0, product_uom_qty := quantity,
            price_unit := product.lst_price }
        let env2 : Env :=
          { env1 with order_lines := env1.order_lines ++ [line],
                      next_id := env1.next_id + 1 }
        (env2, some order.id)

/-- The `shipping_options.append({...})` dict built for a successful rate
(main.py 236-244); `sym`/`nm` are the website currency's symbol and name. -/
def ratedOption (sym nm : String) (c : Carrier) (rate : Rate) : ShippingOption :=
  { carrier_id := c.id, carrier_name := c.name, price := rate.price.getD 0,
    currency := sym, currency_name := nm,
    delivery_time := rate.delivery_time.getD "", is_estimate := none }

/-- The `for carrier in carriers` loop of `_get_shipping_rates` (main.py
230-247): rate each carrier, skip the ones that raise, keep the rates whose
`success` flag is truthy. -/
def collectRates (rs : RateFn) (oid : Nat) (sym nm : String) :
    List Carrier → List ShippingOption
  | [] => []
  | c :: rest =>
    match rs c oid with
    | .error _ => collectRates rs oid sym nm rest
    | .ok rate =>
      if rate.success then ratedOption sym nm c rate :: collectRates rs oid sym nm rest
      else collectRates rs oid sym nm rest

/-- What `collectRates` keeps from a single carrier: `some` exactly when the
call does not raise and the rate's `success` flag is truthy. -/
def rateOpt (rs : RateFn) (oid : Nat) (sym nm : String) (c : Carrier) :
    Option ShippingOption :=
  match rs c oid with
  | .error _ => none
  | .ok rate => if rate.success then some (ratedOption sym nm c rate) else none

/-- The per-carrier dict of `_get_base_carrier_prices` (main.py 354-366). -/
def basePriceOption (sym nm : String) (c : Carrier) : ShippingOption :=
  { carrier_id := c.id, carrier_name := c.name, price := c.fixed_price.getD 0,
    currency := sym, currency_name := nm, delivery_time := "",
    is_estimate := some true }

/-- `VariantInfoController._get_base_carrier_prices` (main.py 342-369):
fixed prices of every carrier, marked as estimates, sorted by price. -/
def _get_base_carrier_prices (sym nm : String) (carriers : List Carrier) :
    List ShippingOption :=
  List.insertionSort priceLE (carriers.map (basePriceOption sym nm))

/-- `VariantInfoController._get_shipping_rates` (main.py 184-252). -/
def _get_shipping_rates (env : Env) (rs : RateFn) (zip_code : String)
    (product_id : Option Nat) (quantity : Int) : Env × List ShippingOption :=
  let sym := env.currency_symbol
  let nm := env.currency_name
  let carriers := searchCarriers env
  if carriers = [] then (env, [])
  else
    let pr := _get_or_create_temp_partner env zip_code
    let ord := _get_order_for_calculation pr.1 pr.2 product_id quantity
    match ord.2 with
    | none => (ord.1, _get_base_carrier_prices sym nm carriers)
    | some oid =>
      (ord.1, List.insertionSort priceLE (collectRates rs oid sym nm carriers))

/-- `VariantInfoController.calculate_shipping` (main.py 109-182).  The
modelled framework primitives are total and the one raising call
(`rate_shipment`) is already handled inside the carrier loop, so the
handler of the outer `try/except` (main.py 171-182) is unreachable here and
the body below covers every modelled behavior. -/
def calculate_shipping (env : Env) (rs : RateFn) (zip_code : String)
    (product_id : Option Nat) (quantity : Int) : Env × ShippingResponse :=
  if zip_code = "" ∨ (pyStrip zip_code).length < 4 then
    (env, { success := false, zip_code := none, shipping_options := none,
            error_message :=
              some "Ingrese un código postal válido (mínimo 4 caracteres)" })
  else
    let zip := pyUpper (pyStrip zip_code)
    let res := _get_shipping_rates env rs zip product_id quantity
    if res.2 = [] then
      (res.1, { success := false, zip_code := some zip, shipping_options := none,
                error_message :=
                  some "No hay métodos de envío disponibles para este código postal" })
    else
      (res.1, { success := true, zip_code := some zip,
                shipping_options := some res.2, error_message := none })

end Mosconi

namespace Mosconi

lemma pyStrOr_empty (x : Option String) : pyStrOr x "" = x.getD "" := by
  cases x with
  | none => rfl
  | some s =>
    simp only [pyStrOr, Option.getD]
    split <;> simp_all

lemma colorLoop_eq_find (l : List Ptav) :
    pyStrOr (colorLoop l) "" =
      (match l.find? (fun v => v.attribute_display_type == "color") with
       | some v => v.value_name
       | none => "") := by
  induction l with
  | nil => rfl
  | cons p rest ih =>
    by_cases h : p.attribute_display_type = "color"
    · simp only [colorLoop, List.find?, h, if_pos, beq_self_eq_true]
      rw [pyStrOr_empty]
      simp [Option.getD]
    · have hb : (p.attribute_display_type == "color") = false := by
        simpa using h
      simp only [colorLoop, List.find?, hb, if_neg h]
      exact ih

/-- A sample variant: the first attribute link is not color-flagged, the
second one is. -/
def prodW : Product :=
  { product_template_attribute_value_ids :=
      [⟨"radio", "L"⟩, ⟨"color", "Rojo"⟩, ⟨"color", "Azul"⟩],
    default_code := some "SKU-1", lst_price := 100 }

/-- A sample carrier published on the website with no company restriction. -/
def carrierW : Carrier :=
  { id := 11, name := "Andreani", website_published := true,
    company_id := none, fixed_price := some 900 }

/-- A sample database: product 1 exists, one published carrier, a public
visitor with no cart. -/
def envW : Env :=
  { partners := [], orders := [], order_lines := [], products := [(1, prodW)],
    carriers := [carrierW], countries := [("AR", 10)], next_id := 100,
    website_id := 1, company_id := 1, pricelist_id := 1,
    currency_symbol := "$", currency_name := "ARS",
    user_is_public := true, user_partner_id := 3, cart_order_id := none }

/-- C2: for every existing variant requested with a non-falsy id, the
variant-info endpoint answers `ok` with `color_name` equal to the value
name of the first attribute-value link whose attribute has
`display_type = 'color'` (the empty string when no link is color-flagged),
and `sku` equal to the variant's stored `default_code` field (the empty
string when it is unset). -/
theorem variant_info_first_color_and_sku (env : Env) (pid : Nat) (p : Product)
    (hpid : pid ≠ 0) (hp : env.products.lookup pid = some p) :
    (get_variant_info env pid).2 =
      .ok (colorNameSpec p) (p.default_code.getD "") pid := by
  have hb : (pid == 0) = false := by simpa using hpid
  simp only [get_variant_info, hb, Bool.false_eq_true, if_false, hp]
  rw [show (.ok (pyStrOr (_get_color_attribute_value p) "")
        (pyStrOr p.default_code "") pid : VariantInfoResult) =
      .ok (pyStrOr (_get_color_attribute_value p) "")
        (pyStrOr p.default_code "") pid from rfl]
  rw [pyStrOr_empty p.default_code]
  unfold _get_color_attribute_value
  rw [colorLoop_eq_find]
  rfl

/-- Witness for C2 at product 1 of the sample database. -/
theorem variant_info_first_color_and_sku_w :
    (1 ≠ 0 ∧ envW.products.lookup 1 = some prodW) ∧
      (get_variant_info envW 1).2 =
        .ok (colorNameSpec prodW) (prodW.default_code.getD "") 1 :=
  ⟨⟨by decide, by rfl⟩,
   variant_info_first_color_and_sku envW 1 prodW (by decide) (by rfl)⟩

/-- C7: the variant-info endpoint is read-only: for every database state
and every requested id, the state after the call equals the state before
it — no record is created, modified or deleted. -/
theorem get_variant_info_readonly (env : Env) (pid : Nat) :
    (get_variant_info env pid).1 = env := by
  unfold get_variant_info
  split
  · rfl
  · split <;> rfl

/-- C8: the variant-info endpoint returns only an `error` message when the
requested id is falsy or names no existing product; otherwise it returns
exactly the fields `color_name`, `sku` and `product_id`, the first two
being strings (missing values already mapped to the empty string). -/
theorem variant_info_result_shape (env : Env) (pid : Nat) :
    (pid = 0 → (get_variant_info env pid).2 = .error "product_id es requerido") ∧
    (pid ≠ 0 → env.products.lookup pid = none →
      (get_variant_info env pid).2 = .error "Producto no encontrado") ∧
    (∀ p, pid ≠ 0 → env.products.lookup pid = some p →
      (get_variant_info env pid).2 =
        .ok (pyStrOr (_get_color_attribute_value p) "")
          (pyStrOr p.default_code "") pid) := by
  refine ⟨fun h0 => ?_, fun hne hnone => ?_, fun p hne hsome => ?_⟩
  · simp [get_variant_info, h0]
  · have hb : (pid == 0) = false := by simpa using hne
    simp [get_variant_info, hb, hnone]
  · have hb : (pid == 0) = false := by simpa using hne
    simp [get_variant_info, hb, hsome]

/-- Witness for C8: the falsy-id branch evaluated at `product_id = 0` on
the sample database. -/
theorem variant_info_result_shape_w :
    (get_variant_info envW 0).2 = .error "product_id es requerido" :=
  (variant_info_result_shape envW 0).1 rfl

/-- Witness for C7 at product 1 of the sample database. -/
theorem get_variant_info_readonly_w :
    (get_variant_info envW 1).1 = envW :=
  get_variant_info_readonly envW 1

lemma collectRates_eq_filterMap (rs : RateFn) (oid : Nat) (sym nm : String)
    (cs : List Carrier) :
    collectRates rs oid sym nm cs = cs.filterMap (rateOpt rs oid sym nm) := by
  induction cs with
  | nil => rfl
  | cons c rest ih =>
    cases h : rs c oid with
    | error e =>
      simp [collectRates, rateOpt, h, ih, List.filterMap_cons]
    | ok r =>
      by_cases hr : r.success
      · simp [collectRates, rateOpt, h, hr, ih, List.filterMap_cons]
      · simp [collectRates, rateOpt, h, hr, ih, List.filterMap_cons]

lemma temp_partner_fields (env : Env) (z : String) :
    (_get_or_create_temp_partner env z).1.orders = env.orders ∧
    (_get_or_create_temp_partner env z).1.order_lines = env.order_lines ∧
    (_get_or_create_temp_partner env z).1.products = env.products ∧
    (_get_or_create_temp_partner env z).1.cart_order_id = env.cart_order_id := by
  unfold _get_or_create_temp_partner
  split
  · split <;> simp
  · simp

lemma tp_partners (env : Env) (z : String) :
    ∃ ps, (_get_or_create_temp_partner env z).1.partners = env.partners ++ ps := by
  unfold _get_or_create_temp_partner
  split
  · split
    · exact ⟨[], by simp⟩
    · exact ⟨_, rfl⟩
  · exact ⟨[], by simp⟩

lemma cartRecord_congr (e1 e2 : Env) (ho : e1.orders = e2.orders)
    (hc : e1.cart_order_id = e2.cart_order_id) :
    cartRecord e1 = cartRecord e2 := by
  unfold cartRecord
  rw [ho, hc]

lemma cartRecord_mem {env : Env} {c : SaleOrder} (h : cartRecord env = some c) :
    c ∈ env.orders := by
  unfold cartRecord at h
  cases hco : env.cart_order_id with
  | none => rw [hco] at h; simp at h
  | some oid =>
    rw [hco] at h
    simp at h
    exact List.mem_of_find?_eq_some h

lemma ord_partners (e : Env) (partner_id : Nat) (pid : Option Nat) (qty : Int) :
    (_get_order_for_calculation e partner_id pid qty).1.partners = e.partners := by
  unfold _get_order_for_calculation
  split
  · rfl
  · split
    · rfl
    · split <;> rfl

lemma ord_lines (e : Env) (partner_id : Nat) (pid : Option Nat) (qty : Int) :
    ∃ ls, (_get_order_for_calculation e partner_id pid qty).1.order_lines =
      e.order_lines ++ ls := by
  unfold _get_order_for_calculation
  split
  · exact ⟨[], by simp⟩
  · split
    · exact ⟨[], by simp⟩
    · split
      · exact ⟨[], by simp⟩
      · exact ⟨_, rfl⟩

lemma ord_orders_frame (e : Env) (partner_id : Nat) (pid : Option Nat) (qty : Int)
    (o : SaleOrder) (ho : o ∈ e.orders)
    (hne : ∀ c, cartRecord e = some c → o.id ≠ c.id) :
    o ∈ (_get_order_for_calculation e partner_id pid qty).1.orders := by
  unfold _get_order_for_calculation
  cases hcr : cartRecord e with
  | some so =>
    simp only
    have hupd :
        (if o.id = so.id then { o with partner_shipping_id := partner_id } else o) = o :=
      if_neg (hne so hcr)
    exact List.mem_map.mpr ⟨o, ho, hupd⟩
  | none =>
    simp only
    split
    · exact ho
    · split
      · exact ho
      · simp only [Env.mk.injEq]
        exact List.mem_append_left _ ho

lemma ord_cart (e : Env) (partner_id : Nat) (pid : Option Nat) (qty : Int)
    (c : SaleOrder) (hcr : cartRecord e = some c) :
    { c with partner_shipping_id := partner_id } ∈
      (_get_order_for_calculation e partner_id pid qty).1.orders := by
  unfold _get_order_for_calculation
  rw [hcr]
  have hm : c ∈ e.orders := cartRecord_mem hcr
  have hmap := List.mem_map_of_mem
    (fun o => if o.id = c.id then { o with partner_shipping_id := partner_id } else o) hm
  simpa using hmap

lemma calculate_env (env : Env) (rs : RateFn) (zip : String)
    (pid : Option Nat) (qty : Int) (hzip : ¬(zip = "" ∨ (pyStrip zip).length < 4)) :
    (calculate_shipping env rs zip pid qty).1 =
      (_get_shipping_rates env rs (pyUpper (pyStrip zip)) pid qty).1 := by
  simp only [calculate_shipping]
  rw [if_neg hzip]
  split <;> rfl

lemma rates_env (env : Env) (rs : RateFn) (z : String) (pid : Option Nat)
    (qty : Int) (hc : searchCarriers env ≠ []) :
    (_get_shipping_rates env rs z pid qty).1 =
      (_get_order_for_calculation (_get_or_create_temp_partner env z).1
        (_get_or_create_temp_partner env z).2 pid qty).1 := by
  simp only [_get_shipping_rates]
  rw [if_neg hc]
  split <;> rfl

/-- A sample rating function: every carrier succeeds with a fixed quote. -/
def rsW : RateFn := fun _ _ =>
  .ok { success := true, price := some 1500, delivery_time := some "3 días" }

/-- A second published carrier, restricted to the sample company. -/
def carrierW2 : Carrier :=
  { id := 12, name := "OCA", website_published := true,
    company_id := some 1, fixed_price := some 700 }

/-- A published carrier whose rating call will raise. -/
def carrierBad : Carrier :=
  { id := 13, name := "Correo", website_published := true,
    company_id := none, fixed_price := none }

/-- A rating function where carrier 13 raises and every other carrier quotes
successfully. -/
def rsMixed : RateFn := fun c _ =>
  if c.id = 13 then .error ()
  else .ok { success := true, price := some (100 * (c.id : Int)), delivery_time := none }

/-- C6: when the submitted zip code is empty or shorter than 4 characters
after trimming, the shipping endpoint immediately returns `success = False`
with an error message; the state is returned untouched (no carrier search
result is used, no temporary record is created) and the response does not
depend on the rating function. -/
theorem invalid_zip_rejected (env : Env) (rs : RateFn) (zip : String)
    (pid : Option Nat) (qty : Int)
    (h : zip = "" ∨ (pyStrip zip).length < 4) :
    calculate_shipping env rs zip pid qty =
      (env, { success := false, zip_code := none, shipping_options := none,
              error_message :=
                some "Ingrese un código postal válido (mínimo 4 caracteres)" }) := by
  simp only [calculate_shipping]
  rw [if_pos h]

/-- Witness for C6 at the two-character zip code `"ab"`. -/
theorem invalid_zip_rejected_w :
    ("ab" = "" ∨ (pyStrip "ab").length < 4) ∧
    calculate_shipping envW rsW "ab" none 1 =
      (envW, { success := false, zip_code := none, shipping_options := none,
               error_message :=
                 some "Ingrese un código postal válido (mínimo 4 caracteres)" }) :=
  ⟨by decide, invalid_zip_rejected envW rsW "ab" none 1 (by decide)⟩

/-- C9: every response of the shipping endpoint that passes zip validation
carries `zip_code` equal to the input zip trimmed and upper-cased, in the
success branch as well as in the no-options error branch. -/
theorem valid_zip_echoed (env : Env) (rs : RateFn) (zip : String)
    (pid : Option Nat) (qty : Int)
    (h : ¬(zip = "" ∨ (pyStrip zip).length < 4)) :
    ((calculate_shipping env rs zip pid qty).2).zip_code =
      some (pyUpper (pyStrip zip)) := by
  simp only [calculate_shipping]
  rw [if_neg h]
  split <;> rfl

/-- Witness for C9 at the zip code `" 1406ab "`. -/
theorem valid_zip_echoed_w :
    (¬(" 1406ab " = "" ∨ (pyStrip " 1406ab ").length < 4)) ∧
    ((calculate_shipping envW rsW " 1406ab " none 1).2).zip_code =
      some (pyUpper (pyStrip " 1406ab ")) :=
  ⟨by decide, valid_zip_echoed envW rsW " 1406ab " none 1 (by decide)⟩

/-- C1: whenever an order could be built for the calculation, the rate list
returned by `_get_shipping_rates` is exactly the collection, over each
published carrier, of the rates whose `success` flag is truthy (carriers
that raise or answer unsuccessfully contribute nothing), sorted ascending
by price. -/
theorem shipping_rates_success_sorted (env : Env) (rs : RateFn) (zip : String)
    (pid : Option Nat) (qty : Int) (oid : Nat)
    (hc : searchCarriers env ≠ [])
    (ho : (_get_order_for_calculation (_get_or_create_temp_partner env zip).1
            (_get_or_create_temp_partner env zip).2 pid qty).2 = some oid) :
    List.Perm (_get_shipping_rates env rs zip pid qty).2
      ((searchCarriers env).filterMap
        (rateOpt rs oid env.currency_symbol env.currency_name)) ∧
    List.Sorted priceLE (_get_shipping_rates env rs zip pid qty).2 := by
  have key : (_get_shipping_rates env rs zip pid qty).2 =
      List.insertionSort priceLE
        (collectRates rs oid env.currency_symbol env.currency_name
          (searchCarriers env)) := by
    simp only [_get_shipping_rates]
    rw [if_neg hc, ho]
  rw [key, collectRates_eq_filterMap]
  exact ⟨List.perm_insertionSort _ _, List.sorted_insertionSort _ _⟩

/-- Witness for C1: two carriers on the sample database, product 1, order
id 101 built from the temporary rows. -/
theorem shipping_rates_success_sorted_w :
    (searchCarriers envW ≠ [] ∧
     (_get_order_for_calculation (_get_or_create_temp_partner envW "1234").1
        (_get_or_create_temp_partner envW "1234").2 (some 1) 1).2 = some 101) ∧
    (List.Perm (_get_shipping_rates envW rsW "1234" (some 1) 1).2
      ((searchCarriers envW).filterMap
        (rateOpt rsW 101 envW.currency_symbol envW.currency_name)) ∧
     List.Sorted priceLE (_get_shipping_rates envW rsW "1234" (some 1) 1).2) :=
  ⟨⟨by decide, by rfl⟩,
   shipping_rates_success_sorted envW rsW "1234" (some 1) 1 101
     (by decide) (by rfl)⟩

/-- C3: if one carrier's `rate_shipment` raises, the carrier loop skips it
and produces exactly what it produces without that carrier: every other
carrier's result is still computed and returned. -/
theorem carrier_exception_skipped (rs : RateFn) (oid : Nat) (sym nm : String)
    (l1 l2 : List Carrier) (c : Carrier)
    (hraise : rs c oid = .error ()) :
    collectRates rs oid sym nm (l1 ++ c :: l2) =
      collectRates rs oid sym nm (l1 ++ l2) := by
  induction l1 with
  | nil => simp [collectRates, hraise]
  | cons d rest ih =>
    simp only [List.cons_append]
    cases h : rs d oid with
    | error e => simp [collectRates, h, ih]
    | ok r => by_cases hr : r.success <;> simp [collectRates, h, hr, ih]

/-- Witness for C3: carrier 13 raises between two succeeding carriers. -/
theorem carrier_exception_skipped_w :
    rsMixed carrierBad 5 = .error () ∧
    collectRates rsMixed 5 "$" "ARS" ([carrierW] ++ carrierBad :: [carrierW2]) =
      collectRates rsMixed 5 "$" "ARS" ([carrierW] ++ [carrierW2]) :=
  ⟨by rfl,
   carrier_exception_skipped rsMixed 5 "$" "ARS" [carrierW] [carrierW2]
     carrierBad (by rfl)⟩

/-- C10: when no order can be built (no active cart and a falsy or
non-existing product id), `_get_shipping_rates` falls back to each
published carrier's configured fixed price, every option is marked
`is_estimate = True`, and the list is again sorted ascending by price. -/
theorem base_price_fallback (env : Env) (rs : RateFn) (z : String)
    (pid : Option Nat) (qty : Int)
    (hc : searchCarriers env ≠ [])
    (hcart : cartRecord env = none)
    (hnoprod : pyFalsyNat pid = true ∨ env.products.lookup (pid.getD 0) = none) :
    (_get_shipping_rates env rs z pid qty).2 =
      _get_base_carrier_prices env.currency_symbol env.currency_name
        (searchCarriers env) ∧
    (∀ o ∈ (_get_shipping_rates env rs z pid qty).2, o.is_estimate = some true) ∧
    List.Sorted priceLE (_get_shipping_rates env rs z pid qty).2 ∧
    List.Perm (_get_shipping_rates env rs z pid qty).2
      ((searchCarriers env).map
        (basePriceOption env.currency_symbol env.currency_name)) := by
  have hf := temp_partner_fields env z
  have hcart1 : cartRecord (_get_or_create_temp_partner env z).1 = none := by
    rw [cartRecord_congr _ env hf.1 hf.2.2.2]; exact hcart
  have hord : (_get_order_for_calculation (_get_or_create_temp_partner env z).1
      (_get_or_create_temp_partner env z).2 pid qty).2 = none := by
    unfold _get_order_for_calculation
    rw [hcart1]
    rcases hnoprod with h | h
    · simp [h]
    · cases hpf : pyFalsyNat pid
      · simp only [hpf, Bool.false_eq_true, if_false]
        rw [hf.2.2.1, h]
      · simp [hpf]
  have key : (_get_shipping_rates env rs z pid qty).2 =
      _get_base_carrier_prices env.currency_symbol env.currency_name
        (searchCarriers env) := by
    simp only [_get_shipping_rates]
    rw [if_neg hc, hord]
  refine ⟨key, ?_, ?_, ?_⟩
  · intro o ho
    rw [key] at ho
    unfold _get_base_carrier_prices at ho
    rw [List.mem_insertionSort] at ho
    obtain ⟨cr, _, rfl⟩ := List.mem_map.mp ho
    rfl
  · rw [key]
    unfold _get_base_carrier_prices
    exact List.sorted_insertionSort _ _
  · rw [key]
    unfold _get_base_carrier_prices
    exact List.perm_insertionSort _ _

/-- Witness for C10: the sample database queried without a product id. -/
theorem base_price_fallback_w :
    (searchCarriers envW ≠ [] ∧ cartRecord envW = none ∧
      (pyFalsyNat none = true ∨
        envW.products.lookup ((none : Option Nat).getD 0) = none)) ∧
    ((_get_shipping_rates envW rsW "1234" none 1).2 =
      _get_base_carrier_prices envW.currency_symbol envW.currency_name
        (searchCarriers envW) ∧
     (∀ o ∈ (_get_shipping_rates envW rsW "1234" none 1).2,
        o.is_estimate = some true) ∧
     List.Sorted priceLE (_get_shipping_rates envW rsW "1234" none 1).2 ∧
     List.Perm (_get_shipping_rates envW rsW "1234" none 1).2
       ((searchCarriers envW).map
         (basePriceOption envW.currency_symbol envW.currency_name))) :=
  ⟨⟨by decide, by rfl, Or.inl (by rfl)⟩,
   base_price_fallback envW rsW "1234" none 1 (by decide) (by rfl)
     (Or.inl (by rfl))⟩

/-- C4 counterexample: on the sample database (public visitor, empty
partner and order tables, product 1, zip `"1234"`) the shipping calculation
creates a temporary partner row and a temporary order row, and both rows
are still present in the state the endpoint returns with: nothing is
deleted, there is no try/finally cleanup anywhere in the controller. -/
theorem temp_rows_not_deleted_cex :
    envW.partners = [] ∧ envW.orders = [] ∧
    (calculate_shipping envW rsW "1234" (some 1) 1).1.partners =
      [{ id := 100, name := tempPartnerName, zip := "1234",
         country_id := some 10, active := false }] ∧
    (calculate_shipping envW rsW "1234" (some 1) 1).1.orders =
      [{ id := 101, partner_id := 100, partner_shipping_id := 100,
         website_id := 1, pricelist_id := 1, company_id := 1 }] := by
  exact ⟨rfl, rfl, by rfl, by rfl⟩

/-- The partner row created by `_get_or_create_temp_partner` for a public
visitor when no matching active row exists. -/
def tempPartnerRow (env : Env) (z : String) : Partner :=
  { id := env.next_id, name := tempPartnerName, zip := z,
    country_id := (env.countries.find? (fun c => c.1 == "AR")).map (fun c => c.2),
    active := false }

/-- State after `_get_or_create_temp_partner` created a fresh partner. -/
def envAfterPartner (env : Env) (z : String) : Env :=
  { env with partners := env.partners ++ [tempPartnerRow env z],
             next_id := env.next_id + 1 }

/-- The draft order row `_get_order_for_calculation` creates on state `e`
for rating partner `pidp`. -/
def ordRow (e : Env) (pidp : Nat) : SaleOrder :=
  { id := e.next_id, partner_id := pidp, partner_shipping_id := pidp,
    website_id := e.website_id, pricelist_id := e.pricelist_id,
    company_id := e.company_id }

/-- The order line created alongside `ordRow`. -/
def lineRow (e : Env) (n : Nat) (qty : Int) (pr : Product) : SaleOrderLine :=
  { id := e.next_id + 1, order_id := e.next_id, product_id := n,
    product_uom_qty := qty, price_unit := pr.lst_price }

/-- The draft order row read back after `_get_order_for_calculation` ran on
the state `envAfterPartner` left behind. -/
def tempOrderRow (env : Env) : SaleOrder :=
  { id := env.next_id + 1, partner_id := env.next_id,
    partner_shipping_id := env.next_id, website_id := env.website_id,
    pricelist_id := env.pricelist_id, company_id := env.company_id }

lemma ord_create (e : Env) (pidp n : Nat) (qty : Int) (pr : Product)
    (hcr : cartRecord e = none) (hn : n ≠ 0)
    (hl : e.products.lookup n = some pr) :
    _get_order_for_calculation e pidp (some n) qty =
      ({ e with orders := e.orders ++ [ordRow e pidp],
                order_lines := e.order_lines ++ [lineRow e n qty pr],
                next_id := e.next_id + 2 }, some e.next_id) := by
  have hf : pyFalsyNat (some n) = false := by
    simp [pyFalsyNat, hn]
  have hl' : e.products.lookup ((some n).getD 0) = some pr := hl
  simp only [_get_order_for_calculation, hcr, hf, Bool.false_eq_true,
    if_false, hl', ordRow, lineRow]
  rfl

/-- C4 (amended): a shipping calculation that creates the temporary partner
and order rows does not delete them -- both rows are still present in the
final state when the endpoint returns; the partner is merely created with
`active = False` so that it stays out of normal listings. -/
theorem temp_rows_persist (env : Env) (rs : RateFn) (zip : String) (n : Nat)
    (qty : Int) (pr : Product)
    (hzip : ¬(zip = "" ∨ (pyStrip zip).length < 4))
    (hpub : env.user_is_public = true)
    (hfind : env.partners.find?
        (fun p => p.name == tempPartnerName &&
          p.zip == pyUpper (pyStrip zip) && p.active) = none)
    (hcart : cartRecord env = none)
    (hc : searchCarriers env ≠ [])
    (hn : n ≠ 0)
    (hprod : env.products.lookup n = some pr) :
    tempPartnerRow env (pyUpper (pyStrip zip)) ∈
      (calculate_shipping env rs zip (some n) qty).1.partners ∧
    tempOrderRow env ∈
      (calculate_shipping env rs zip (some n) qty).1.orders := by
  have hA : _get_or_create_temp_partner env (pyUpper (pyStrip zip)) =
      (envAfterPartner env (pyUpper (pyStrip zip)), env.next_id) := by
    simp only [_get_or_create_temp_partner, hpub, if_true, hfind,
      envAfterPartner, tempPartnerRow]
  have hcartA : cartRecord (envAfterPartner env (pyUpper (pyStrip zip))) = none := by
    rw [cartRecord_congr (envAfterPartner env (pyUpper (pyStrip zip))) env rfl rfl]
    exact hcart
  have hB := ord_create (envAfterPartner env (pyUpper (pyStrip zip)))
    env.next_id n qty pr hcartA hn hprod
  have hB' : _get_order_for_calculation
      (_get_or_create_temp_partner env (pyUpper (pyStrip zip))).1
      (_get_or_create_temp_partner env (pyUpper (pyStrip zip))).2
      (some n) qty =
      ({ envAfterPartner env (pyUpper (pyStrip zip)) with
          orders := (envAfterPartner env (pyUpper (pyStrip zip))).orders ++
            [ordRow (envAfterPartner env (pyUpper (pyStrip zip))) env.next_id],
          order_lines :=
            (envAfterPartner env (pyUpper (pyStrip zip))).order_lines ++
              [lineRow (envAfterPartner env (pyUpper (pyStrip zip))) n qty pr],
          next_id := (envAfterPartner env (pyUpper (pyStrip zip))).next_id + 2 },
       some (envAfterPartner env (pyUpper (pyStrip zip))).next_id) := by
    rw [hA]
    exact hB
  have hE : (calculate_shipping env rs zip (some n) qty).1 =
      (_get_order_for_calculation
        (_get_or_create_temp_partner env (pyUpper (pyStrip zip))).1
        (_get_or_create_temp_partner env (pyUpper (pyStrip zip))).2
        (some n) qty).1 := by
    rw [calculate_env env rs zip (some n) qty hzip]
    exact rates_env env rs (pyUpper (pyStrip zip)) (some n) qty hc
  constructor
  · rw [hE, hB']
    show tempPartnerRow env (pyUpper (pyStrip zip)) ∈
      env.partners ++ [tempPartnerRow env (pyUpper (pyStrip zip))]
    exact List.mem_append_right _ (List.mem_singleton_self _)
  · rw [hE, hB']
    show tempOrderRow env ∈ env.orders ++ [tempOrderRow env]
    exact List.mem_append_right _ (List.mem_singleton_self _)

/-- Witness for C4 (amended) on the sample database. -/
theorem temp_rows_persist_w :
    ((¬("1234" = "" ∨ (pyStrip "1234").length < 4)) ∧
     envW.user_is_public = true ∧
     envW.partners.find?
        (fun p => p.name == tempPartnerName &&
          p.zip == pyUpper (pyStrip "1234") && p.active) = none ∧
     cartRecord envW = none ∧ searchCarriers envW ≠ [] ∧ (1 : Nat) ≠ 0 ∧
     envW.products.lookup 1 = some prodW) ∧
    (tempPartnerRow envW (pyUpper (pyStrip "1234")) ∈
      (calculate_shipping envW rsW "1234" (some 1) 1).1.partners ∧
     tempOrderRow envW ∈
      (calculate_shipping envW rsW "1234" (some 1) 1).1.orders) :=
  ⟨⟨by decide, rfl, rfl, rfl, by decide, by decide, rfl⟩,
   temp_rows_persist envW rsW "1234" 1 1 prodW (by decide) rfl rfl rfl
     (by decide) (by decide) rfl⟩

/-- A pre-existing sale order acting as the visitor's active cart. -/
def cartOrderW : SaleOrder :=
  { id := 5, partner_id := 7, partner_shipping_id := 7,
    website_id := 1, pricelist_id := 1, company_id := 1 }

/-- The sample database with an active cart pointing at order 5. -/
def envCart : Env :=
  { envW with orders := [cartOrderW], cart_order_id := some 5 }

/-- C5 counterexample: with an active cart (order 5, shipping partner 7),
the shipping calculation overwrites the pre-existing cart order's
`partner_shipping_id` with the id of the freshly created temporary partner
(100) and never restores it, so a pre-existing sale order is changed by the
calculation. -/
theorem cart_mutated_cex :
    cartOrderW ∈ envCart.orders ∧
    cartOrderW ∉ (calculate_shipping envCart rsW "1234" none 1).1.orders ∧
    ({ cartOrderW with partner_shipping_id := 100 } : SaleOrder) ∈
      (calculate_shipping envCart rsW "1234" none 1).1.orders := by
  exact ⟨by decide, by decide, by decide⟩

lemma frame_refl (env : Env) :
    (∃ ps, env.partners = env.partners ++ ps) ∧
    (∃ ls, env.order_lines = env.order_lines ++ ls) ∧
    (∀ o ∈ env.orders, (∀ c, cartRecord env = some c → o.id ≠ c.id) →
      o ∈ env.orders) ∧
    (∀ c, cartRecord env = some c →
      ∃ m, ({ c with partner_shipping_id := m } : SaleOrder) ∈ env.orders) := by
  refine ⟨⟨[], by simp⟩, ⟨[], by simp⟩, fun o ho _ => ho,
    fun c hcr => ⟨c.partner_shipping_id, ?_⟩⟩
  have h : ({ c with partner_shipping_id := c.partner_shipping_id } : SaleOrder) = c := rfl
  rw [h]
  exact cartRecord_mem hcr

/-- C5 (amended): the shipping calculation never modifies pre-existing
partner rows or order lines (new rows are only appended to those tables),
and the only pre-existing sale order it can modify is the active cart,
whose `partner_shipping_id` it overwrites without restoring it; every
pre-existing order other than the cart survives unchanged. -/
theorem shipping_frame (env : Env) (rs : RateFn) (zip : String)
    (pid : Option Nat) (qty : Int) :
    (∃ ps, (calculate_shipping env rs zip pid qty).1.partners =
      env.partners ++ ps) ∧
    (∃ ls, (calculate_shipping env rs zip pid qty).1.order_lines =
      env.order_lines ++ ls) ∧
    (∀ o ∈ env.orders, (∀ c, cartRecord env = some c → o.id ≠ c.id) →
      o ∈ (calculate_shipping env rs zip pid qty).1.orders) ∧
    (∀ c, cartRecord env = some c →
      ∃ m, ({ c with partner_shipping_id := m } : SaleOrder) ∈
        (calculate_shipping env rs zip pid qty).1.orders) := by
  by_cases hz : zip = "" ∨ (pyStrip zip).length < 4
  · have hE : (calculate_shipping env rs zip pid qty).1 = env := by
      simp only [calculate_shipping]
      rw [if_pos hz]
    rw [hE]
    exact frame_refl env
  · have hE0 := calculate_env env rs zip pid qty hz
    by_cases hcar : searchCarriers env = []
    · have hE : (calculate_shipping env rs zip pid qty).1 = env := by
        rw [hE0]
        simp only [_get_shipping_rates]
        rw [if_pos hcar]
      rw [hE]
      exact frame_refl env
    · have hE : (calculate_shipping env rs zip pid qty).1 =
          (_get_order_for_calculation
            (_get_or_create_temp_partner env (pyUpper (pyStrip zip))).1
            (_get_or_create_temp_partner env (pyUpper (pyStrip zip))).2
            pid qty).1 := by
        rw [hE0]
        exact rates_env env rs (pyUpper (pyStrip zip)) pid qty hcar
      have hf := temp_partner_fields env (pyUpper (pyStrip zip))
      have hcrA : cartRecord
          (_get_or_create_temp_partner env (pyUpper (pyStrip zip))).1 =
          cartRecord env :=
        cartRecord_congr _ env hf.1 hf.2.2.2
      refine ⟨?_, ?_, ?_, ?_⟩
      · obtain ⟨ps, hps⟩ := tp_partners env (pyUpper (pyStrip zip))
        refine ⟨ps, ?_⟩
        rw [hE, ord_partners, hps]
      · obtain ⟨ls, hls⟩ := ord_lines
          (_get_or_create_temp_partner env (pyUpper (pyStrip zip))).1
          (_get_or_create_temp_partner env (pyUpper (pyStrip zip))).2 pid qty
        refine ⟨ls, ?_⟩
        rw [hE, hls, hf.2.1]
      · intro o ho hne
        rw [hE]
        refine ord_orders_frame _ _ pid qty o ?_ ?_
        · rw [hf.1]
          exact ho
        · intro c hcr
          exact hne c (by rw [← hcrA]; exact hcr)
      · intro c hcr
        refine ⟨(_get_or_create_temp_partner env (pyUpper (pyStrip zip))).2, ?_⟩
        rw [hE]
        exact ord_cart _ _ pid qty c (by rw [hcrA]; exact hcr)

/-- Witness for C5 (amended): the active cart of the sample database is
still present, up to its `partner_shipping_id`, after the calculation. -/
theorem shipping_frame_w :
    ∃ m, ({ cartOrderW with partner_shipping_id := m } : SaleOrder) ∈
      (calculate_shipping envCart rsW "1234" none 1).1.orders :=
  (shipping_frame envCart rsW "1234" none 1).2.2.2 cartOrderW (by rfl)

end Mosconi
